import Mathlib

/-!
Verification of the LinkedIn Puppeteer service (server.js + scraper.js).

The development shallowly embeds the repository's code:

* JSON values are an inductive `Json` (mutual with `JsonList`/`JsonFields`
  so that object fields keep their insertion order, as `JSON.stringify`
  serializes them in JavaScript).
* `Json.chars` is the embedding of `JSON.stringify` (character list level),
  with the standard escaping of quote, backslash and control characters.
* Time is modeled as an integer count of milliseconds; `dayjs` parsing is an
  explicit oracle `String → Option Int` carried in the `World` structure.
* Each scraper call receives a `World` describing the external effects the
  browser would produce (navigation outcome, observed page address, page
  HTML, the values `page.evaluate` would return, the current instant).
* Thrown exceptions become `Except.error` with the message string
  (`String(e)` in the source), and the HTTP handlers are pure functions
  from request plus collaborator to a `Response` together with a `Trace`
  of the external calls they perform.
-/

set_option maxHeartbeats 1000000
set_option maxRecDepth 100000

/-! ## JSON values and JSON.stringify -/

mutual
inductive Json where
  | null : Json
  | bool (b : Bool) : Json
  | num (n : Int) : Json
  | str (s : String) : Json
  | arr (xs : JsonList) : Json
  | obj (fs : JsonFields) : Json
inductive JsonList where
  | nil : JsonList
  | cons (hd : Json) (tl : JsonList) : JsonList
inductive JsonFields where
  | nil : JsonFields
  | cons (key : String) (value : Json) (tl : JsonFields) : JsonFields
end

/-- Convert a Lean list of JSON values to the mutual-inductive list shape. -/
def jarr : List Json → JsonList
  | [] => .nil
  | j :: js => .cons j (jarr js)

/-- Character of one decimal digit (only ever applied to values below 10). -/
def digitCh (n : Nat) : Char :=
  if n = 0 then '0'
  else if n = 1 then '1'
  else if n = 2 then '2'
  else if n = 3 then '3'
  else if n = 4 then '4'
  else if n = 5 then '5'
  else if n = 6 then '6'
  else if n = 7 then '7'
  else if n = 8 then '8'
  else '9'

/-- Decimal digits of a natural number, with explicit fuel so the
definition is structural (and hence kernel-evaluable). -/
def digitsAux : Nat → Nat → List Char
  | 0, _ => []
  | fuel + 1, n => if n < 10 then [digitCh n] else digitsAux fuel (n / 10) ++ [digitCh (n % 10)]

def natChars (n : Nat) : List Char := digitsAux (n + 1) n

def intChars (n : Int) : List Char :=
  if n < 0 then '-' :: natChars n.natAbs else natChars n.natAbs

/-- Escaping of one character, as JSON.stringify performs it for the
characters that occur in this system (quote, backslash, newline, carriage
return, tab); other characters are copied through. -/
def escChar (c : Char) : List Char :=
  if c = '"' then ['\\', '"']
  else if c = '\\' then ['\\', '\\']
  else if c = '\n' then ['\\', 'n']
  else if c = '\r' then ['\\', 'r']
  else if c = '\t' then ['\\', 't']
  else [c]

def escChars : List Char → List Char
  | [] => []
  | c :: cs => escChar c ++ escChars cs

mutual
/-- Characters of `JSON.stringify` of a JSON value. -/
def Json.chars : Json → List Char
  | .null => "null".data
  | .bool true => "true".data
  | .bool false => "false".data
  | .num n => intChars n
  | .str s => '"' :: (escChars s.data ++ ['"'])
  | .arr xs => '[' :: (JsonList.chars xs ++ [']'])
  | .obj fs => '\x7b' :: (JsonFields.chars fs ++ ['\x7d'])
def JsonList.chars : JsonList → List Char
  | .nil => []
  | .cons j .nil => Json.chars j
  | .cons j (.cons j2 tl) => Json.chars j ++ ',' :: JsonList.chars (.cons j2 tl)
def JsonFields.chars : JsonFields → List Char
  | .nil => []
  | .cons k v .nil => '"' :: (escChars k.data ++ '"' :: ':' :: Json.chars v)
  | .cons k v (.cons k2 v2 tl) =>
      ('"' :: (escChars k.data ++ '"' :: ':' :: Json.chars v)) ++
        ',' :: JsonFields.chars (.cons k2 v2 tl)
end

/-- Look up a field of a JSON object (first occurrence). -/
def JsonFields.lookupField : JsonFields → String → Option Json
  | .nil, _ => none
  | .cons k v tl, key => if k = key then some v else tl.lookupField key

def Json.getField : Json → String → Option Json
  | .obj fs, k => fs.lookupField k
  | _, _ => none

def JsonList.length : JsonList → Nat
  | .nil => 0
  | .cons _ tl => 1 + tl.length

/-! ### JSON.stringify emits no raw newline, so one stringified value plus a
trailing newline is exactly one NDJSON line. -/

theorem digitCh_ne_newline (n : Nat) : digitCh n ≠ '\n' := by
  unfold digitCh
  split
  · decide
  split
  · decide
  split
  · decide
  split
  · decide
  split
  · decide
  split
  · decide
  split
  · decide
  split
  · decide
  split
  · decide
  decide

theorem digitsAux_no_newline (fuel n : Nat) : '\n' ∉ digitsAux fuel n := by
  induction fuel generalizing n with
  | zero => simp [digitsAux]
  | succ fuel ih =>
    unfold digitsAux
    split
    · simp only [List.mem_singleton]
      intro h
      exact digitCh_ne_newline _ h.symm
    · intro h
      rcases List.mem_append.mp h with h | h
      · exact ih _ h
      · simp only [List.mem_singleton] at h
        exact digitCh_ne_newline _ h.symm

theorem intChars_no_newline (n : Int) : '\n' ∉ intChars n := by
  unfold intChars natChars
  split
  · intro h
    rcases List.mem_cons.mp h with h | h
    · exact absurd h (by decide)
    · exact digitsAux_no_newline _ _ h
  · exact digitsAux_no_newline _ _

theorem escChar_no_newline (c : Char) : '\n' ∉ escChar c := by
  unfold escChar
  split_ifs with h1 h2 h3 h4 h5 <;> try decide
  simp only [List.mem_singleton]
  intro h
  exact h3 h.symm

theorem escChars_no_newline (cs : List Char) : '\n' ∉ escChars cs := by
  induction cs with
  | nil => simp [escChars]
  | cons c cs ih =>
    unfold escChars
    intro h
    rcases List.mem_append.mp h with h | h
    · exact escChar_no_newline c h
    · exact ih h

mutual
theorem jsonCharsNoNewline : (j : Json) → '\n' ∉ Json.chars j
  | .null => by decide
  | .bool true => by decide
  | .bool false => by decide
  | .num n => intChars_no_newline n
  | .str s => by
      simp only [Json.chars, List.mem_cons, List.mem_append, List.mem_singleton]
      rintro (h | h | h)
      · exact absurd h (by decide)
      · exact escChars_no_newline s.data h
      · exact absurd h (by decide)
  | .arr xs => by
      simp only [Json.chars, List.mem_cons, List.mem_append, List.mem_singleton]
      rintro (h | h | h)
      · exact absurd h (by decide)
      · exact jsonListCharsNoNewline xs h
      · exact absurd h (by decide)
  | .obj fs => by
      simp only [Json.chars, List.mem_cons, List.mem_append, List.mem_singleton]
      rintro (h | h | h)
      · exact absurd h (by decide)
      · exact jsonFieldsCharsNoNewline fs h
      · exact absurd h (by decide)
theorem jsonListCharsNoNewline : (xs : JsonList) → '\n' ∉ JsonList.chars xs
  | .nil => by simp [JsonList.chars]
  | .cons j .nil => jsonCharsNoNewline j
  | .cons j (.cons j2 tl) => by
      simp only [JsonList.chars, List.mem_append, List.mem_cons]
      rintro (h | h | h)
      · exact jsonCharsNoNewline j h
      · exact absurd h (by decide)
      · exact jsonListCharsNoNewline (.cons j2 tl) h
theorem jsonFieldsCharsNoNewline : (fs : JsonFields) → '\n' ∉ JsonFields.chars fs
  | .nil => by simp [JsonFields.chars]
  | .cons k v .nil => by
      simp only [JsonFields.chars, List.mem_cons, List.mem_append]
      rintro (h | h | h | h | h)
      · exact absurd h (by decide)
      · exact escChars_no_newline k.data h
      · exact absurd h (by decide)
      · exact absurd h (by decide)
      · exact jsonCharsNoNewline v h
  | .cons k v (.cons k2 v2 tl) => by
      simp only [JsonFields.chars, List.mem_append, List.mem_cons]
      rintro ((h | h | h | h | h) | h | h)
      · exact absurd h (by decide)
      · exact escChars_no_newline k.data h
      · exact absurd h (by decide)
      · exact absurd h (by decide)
      · exact jsonCharsNoNewline v h
      · exact absurd h (by decide)
      · exact jsonFieldsCharsNoNewline (.cons k2 v2 tl) h
end

/-! ## Small JavaScript semantics helpers -/

/-- Truthiness of `Boolean(x)` for an optional environment-variable string:
`undefined` and the empty string are falsy, every other string is truthy. -/
def jsTruthy : Option String → Bool
  | none => false
  | some s => decide (s ≠ "")

/-- Does the first list start with the second one? -/
def startsWithL : List Char → List Char → Bool
  | _, [] => true
  | [], _ :: _ => false
  | c :: cs, p :: ps => c = p && startsWithL cs ps

/-- Substring test (embedding of `String.prototype.includes` and of a
regular-expression test for a literal pattern). -/
def hasSubstr : List Char → List Char → Bool
  | [], p => decide (p = [])
  | c :: cs, p => startsWithL (c :: cs) p || hasSubstr cs p

/-- ASCII lowercase of one character (the case folding a case-insensitive
regular expression performs on the patterns used here). -/
def lowerCh (c : Char) : Char :=
  if 65 ≤ c.toNat ∧ c.toNat ≤ 90 then Char.ofNat (c.toNat + 32) else c

def lowerChars : List Char → List Char
  | [] => []
  | c :: cs => lowerCh c :: lowerChars cs

/-- Embedding of `looksLikeCaptcha` (scraper.js): the observed address
contains "checkpoint/challenge", or the page HTML matches /captcha/i. -/
def looksLikeCaptcha (url html : String) : Bool :=
  hasSubstr url.data ("checkpoint/challenge".data) ||
    hasSubstr (lowerChars html.data) ("captcha".data)

/-- Embedding of `url.replace(/\/?$/, '/')`: ensure one trailing slash. -/
def withSlash (url : String) : String :=
  if url.data.getLast? = some '/' then url else url ++ "/"

/-- Posts address for a profile (scraper.js scrapeProfilePosts): keep the
address when it already matches /detail\/recent-activity/i, else append
"detail/recent-activity/shares/". -/
def profilePostsUrl (url : String) : String :=
  if hasSubstr (lowerChars url.data) ("detail/recent-activity".data) then url
  else withSlash url ++ "detail/recent-activity/shares/"

def companyPostsUrl (url : String) : String := withSlash url ++ "posts/"

def companyJobsUrl (url : String) : String := withSlash url ++ "jobs/"

/-! ## Scraper models (scraper.js)

A `World` packages every value the browser environment supplies during one
scrape call: the outcome of `ensureLogin` (which itself wraps cookie
loading, the feed navigation and the interactive login, and throws when
credentials are missing), the outcome of `page.goto`, the address
`page.url()` reports after navigation, the page HTML from
`page.content()`, the records the `page.evaluate` extractions return, the
current instant (for `new Date().toISOString()` and `dayjs()`), and the
`dayjs` parser as an oracle from strings to epoch milliseconds. -/

structure PostItem where
  text : Option String
  timeRaw : Option String
  postUrl : Option String
deriving DecidableEq, Repr

structure JobCard where
  title : Option String
  location : Option String
  listed : Option String
  jobUrl : Option String
deriving DecidableEq, Repr

structure World where
  loginResult : Except String Unit
  gotoResult : Except String Unit
  pageUrl : String
  html : String
  nowIso : String
  now : Int
  parse : String → Option Int
  profileEval : Json
  companyEval : Json
  profilePostNodes : List PostItem
  companyPostNodes : List PostItem
  jobCards : List JobCard

/-- The anti-bot sentinel value `{ error: 'captcha_or_challenge', url: page.url() }`. -/
def sentinel (observedUrl : String) : Json :=
  .obj (.cons "error" (.str "captcha_or_challenge") (.cons "url" (.str observedUrl) .nil))

/-- Gate shared by all scrapers: `ensureLogin` when `login` is true, then
`page.goto`; either may throw. -/
def scrapeGates (w : World) (login : Bool) : Except String Unit :=
  match (if login then w.loginResult else .ok ()) with
  | .error e => .error e
  | .ok () => w.gotoResult

/-- Embedding of `scrapeProfile`: after the login and navigation gates,
return the captcha sentinel when the page looks like a challenge, else
`{url, scrapedAt, data}` with the evaluated profile record. -/
def scrapeProfile (w : World) (url : String) (login : Bool) : Except String Json :=
  match scrapeGates w login with
  | .error e => .error e
  | .ok () =>
    if looksLikeCaptcha w.pageUrl w.html then .ok (sentinel w.pageUrl)
    else .ok (.obj (.cons "url" (.str url)
                     (.cons "scrapedAt" (.str w.nowIso)
                       (.cons "data" w.profileEval .nil))))

/-- Embedding of `scrapeCompany` (same captcha handling as `scrapeProfile`). -/
def scrapeCompany (w : World) (url : String) (login : Bool) : Except String Json :=
  match scrapeGates w login with
  | .error e => .error e
  | .ok () =>
    if looksLikeCaptcha w.pageUrl w.html then .ok (sentinel w.pageUrl)
    else .ok (.obj (.cons "url" (.str url)
                     (.cons "scrapedAt" (.str w.nowIso)
                       (.cons "data" w.companyEval .nil))))

/-- Cutoff instant `dayjs().subtract(days, 'day')` in epoch milliseconds. -/
def cutoffOf (now : Int) (days : Nat) : Int := now - (days : Int) * 86400000

/-- The filter predicate applied to scraped post items: keep items without
a timestamp, items whose timestamp `dayjs` cannot parse, and items whose
parsed timestamp is strictly after the cutoff (`isAfter`). -/
def keepItem (parse : String → Option Int) (cutoff : Int) (it : PostItem) : Bool :=
  match it.timeRaw with
  | none => true
  | some s =>
    match parse s with
    | none => true
    | some t => decide (cutoff < t)

def postsFilter (parse : String → Option Int) (cutoff : Int) (items : List PostItem) : List PostItem :=
  items.filter (keepItem parse cutoff)

structure PostsResult where
  url : String
  scrapedAt : String
  days : Nat
  items : List PostItem
deriving DecidableEq, Repr

/-- Embedding of `scrapeProfilePosts`: navigate to the recent-activity
address, collect the post nodes, and keep those the cutoff filter accepts.
No captcha check is performed by this scraper. -/
def scrapeProfilePosts (w : World) (url : String) (days : Nat) (login : Bool) : Except String PostsResult :=
  match scrapeGates w login with
  | .error e => .error e
  | .ok () => .ok { url := profilePostsUrl url, scrapedAt := w.nowIso, days := days,
                    items := postsFilter w.parse (cutoffOf w.now days) w.profilePostNodes }

/-- Embedding of `scrapeCompanyPosts` (same filter over the company post nodes). -/
def scrapeCompanyPosts (w : World) (url : String) (days : Nat) (login : Bool) : Except String PostsResult :=
  match scrapeGates w login with
  | .error e => .error e
  | .ok () => .ok { url := companyPostsUrl url, scrapedAt := w.nowIso, days := days,
                    items := postsFilter w.parse (cutoffOf w.now days) w.companyPostNodes }

structure JobsResult where
  url : String
  scrapedAt : String
  jobs : List JobCard
deriving DecidableEq, Repr

/-- Embedding of `scrapeCompanyJobs`: the source slices the matched card
elements to the first 50 and maps the extraction over them; `w.jobCards`
holds the per-card extracted records, so slicing before mapping equals
taking 50 of the extracted records. -/
def scrapeCompanyJobs (w : World) (url : String) (login : Bool) : Except String JobsResult :=
  match scrapeGates w login with
  | .error e => .error e
  | .ok () => .ok { url := companyJobsUrl url, scrapedAt := w.nowIso,
                    jobs := w.jobCards.take 50 }

/-- JavaScript `null` for a possibly missing string. -/
def optStr : Option String → Json
  | none => .null
  | some s => .str s

def postItemJson (it : PostItem) : Json :=
  .obj (.cons "text" (optStr it.text)
         (.cons "timeRaw" (optStr it.timeRaw)
           (.cons "postUrl" (optStr it.postUrl) .nil)))

def postsResultJson (r : PostsResult) : Json :=
  .obj (.cons "url" (.str r.url)
         (.cons "scrapedAt" (.str r.scrapedAt)
           (.cons "days" (.num r.days)
             (.cons "items" (.arr (jarr (r.items.map postItemJson))) .nil))))

def jobCardJson (c : JobCard) : Json :=
  .obj (.cons "title" (optStr c.title)
         (.cons "location" (optStr c.location)
           (.cons "listed" (optStr c.listed)
             (.cons "jobUrl" (optStr c.jobUrl) .nil))))

def jobsResultJson (r : JobsResult) : Json :=
  .obj (.cons "url" (.str r.url)
         (.cons "scrapedAt" (.str r.scrapedAt)
           (.cons "jobs" (.arr (jarr (r.jobs.map jobCardJson))) .nil)))

/-! ## The extraction-collaborator boundary

The HTTP layer is verified against an arbitrary collaborator: a record of
the five scrape operations, each returning a JSON value or a thrown
exception message. `collabOfWorld` instantiates it with the scraper models
above. -/

structure Collab where
  profile : String → Bool → Except String Json
  profilePosts : String → Nat → Bool → Except String Json
  company : String → Bool → Except String Json
  companyPosts : String → Nat → Bool → Except String Json
  jobsCompany : String → Bool → Except String Json

def collabOfWorld (w : World) : Collab where
  profile := fun url login => scrapeProfile w url login
  profilePosts := fun url days login => (scrapeProfilePosts w url days login).map postsResultJson
  company := fun url login => scrapeCompany w url login
  companyPosts := fun url days login => (scrapeCompanyPosts w url days login).map postsResultJson
  jobsCompany := fun url login => (scrapeCompanyJobs w url login).map jobsResultJson

/-! ## Throttle model (server.js lines 19 to 28)

Timing is embedded explicitly: instants are integer milliseconds,
`Math.random()` is a rational in the half-open unit interval, and
`delay(ms)` resumes exactly `ms` later (no other time passes inside the
synchronous code of `throttle`). -/

/-- Embedding of `Math.floor(Math.random() * (max - min + 1)) + min`. -/
def randWait (mn mx : Int) (q : Rat) : Int :=
  ⌊q * ((mx : Rat) - (mn : Rat) + 1)⌋ + mn

/-- One throttle call: `elapsed = now - lastRun`; when `elapsed < wait`
the caller sleeps `wait - elapsed`; the value returned is the instant at
which `lastRun = Date.now()` executes, which becomes the newly recorded
operation start. -/
def throttleStep (lastRun now wait : Int) : Int :=
  if now - lastRun < wait then lastRun + wait else now

/-- Recorded start times of back-to-back throttle calls with a fixed wait
of 1000 ms: each next call begins at the instant the previous one recorded. -/
def throttleChain (start : Int) : Nat → Int
  | 0 => start
  | n + 1 => throttleStep (throttleChain start n) (throttleChain start n) 1000

/-! ## HTTP layer model (server.js)

Handlers are pure functions of the environment, the collaborator and the
request, returning the HTTP response together with a `Trace` of the
external operations performed (browser creation and collaborator calls).
The `await throttle()` at the top of each handler only delays; it does not
affect the response value and is verified separately through
`throttleStep`. -/

structure Env where
  linkedinEmail : Option String
deriving DecidableEq, Repr

structure SingleReq where
  url : Option String
  days : Option Nat
  loginParam : Option String
deriving DecidableEq, Repr

/-- Embedding of `req.query.login === '1' || Boolean(process.env.LINKEDIN_EMAIL)`. -/
def singleLogin (env : Env) (req : SingleReq) : Bool :=
  decide (req.loginParam = some "1") || jsTruthy env.linkedinEmail

/-- JavaScript `!url` for the query parameter: missing or empty string. -/
def urlMissing : Option String → Bool
  | none => true
  | some s => decide (s = "")

/-- Embedding of `Number(req.query.days || 30)` for a well-formed numeric
parameter (absent parameter defaults to 30). -/
def singleDays (req : SingleReq) : Nat := req.days.getD 30

inductive CallTag where
  | profile (url : String) (login : Bool)
  | profilePosts (url : String) (days : Nat) (login : Bool)
  | company (url : String) (login : Bool)
  | companyPosts (url : String) (days : Nat) (login : Bool)
  | jobsCompany (url : String) (login : Bool)
deriving DecidableEq, Repr

/-- A collaborator call engages the login flow when it is passed `login = true`
(`ensureLogin` runs only under that flag, inside the scrapers). -/
def CallTag.loginFlag : CallTag → Bool
  | .profile _ login => login
  | .profilePosts _ _ login => login
  | .company _ login => login
  | .companyPosts _ _ login => login
  | .jobsCompany _ login => login

structure Trace where
  browserCreated : Bool
  collabCalls : List CallTag
deriving DecidableEq, Repr

def noTrace : Trace := { browserCreated := false, collabCalls := [] }

/-- Session acquisition happens only inside a collaborator call whose
login flag is set. -/
def sessionAcquired (tr : Trace) : Bool := tr.collabCalls.any CallTag.loginFlag

structure Response where
  status : Nat
  body : Json

def errBody (msg : String) : Json := .obj (.cons "error" (.str msg) .nil)

/-- Embedding of the GET /profile handler. -/
def getProfile (env : Env) (collab : Collab) (req : SingleReq) : Response × Trace :=
  let login := singleLogin env req
  if urlMissing req.url then
    ({ status := 400, body := errBody "Missing ?url" }, noTrace)
  else
    let url := req.url.getD ""
    match collab.profile url login with
    | .ok j => ({ status := 200, body := j }, { browserCreated := true, collabCalls := [.profile url login] })
    | .error e => ({ status := 500, body := errBody e }, { browserCreated := true, collabCalls := [.profile url login] })

/-- Embedding of the GET /profile_posts handler. -/
def getProfilePosts (env : Env) (collab : Collab) (req : SingleReq) : Response × Trace :=
  let login := singleLogin env req
  let days := singleDays req
  if urlMissing req.url then
    ({ status := 400, body := errBody "Missing ?url" }, noTrace)
  else
    let url := req.url.getD ""
    match collab.profilePosts url days login with
    | .ok j => ({ status := 200, body := j }, { browserCreated := true, collabCalls := [.profilePosts url days login] })
    | .error e => ({ status := 500, body := errBody e }, { browserCreated := true, collabCalls := [.profilePosts url days login] })

/-- Embedding of the GET /company handler. -/
def getCompany (env : Env) (collab : Collab) (req : SingleReq) : Response × Trace :=
  let login := singleLogin env req
  if urlMissing req.url then
    ({ status := 400, body := errBody "Missing ?url" }, noTrace)
  else
    let url := req.url.getD ""
    match collab.company url login with
    | .ok j => ({ status := 200, body := j }, { browserCreated := true, collabCalls := [.company url login] })
    | .error e => ({ status := 500, body := errBody e }, { browserCreated := true, collabCalls := [.company url login] })

/-- Embedding of the GET /company_posts handler. -/
def getCompanyPosts (env : Env) (collab : Collab) (req : SingleReq) : Response × Trace :=
  let login := singleLogin env req
  let days := singleDays req
  if urlMissing req.url then
    ({ status := 400, body := errBody "Missing ?url" }, noTrace)
  else
    let url := req.url.getD ""
    match collab.companyPosts url days login with
    | .ok j => ({ status := 200, body := j }, { browserCreated := true, collabCalls := [.companyPosts url days login] })
    | .error e => ({ status := 500, body := errBody e }, { browserCreated := true, collabCalls := [.companyPosts url days login] })

/-- Embedding of the GET /jobs_company handler (distinct 400 message). -/
def getJobsCompany (env : Env) (collab : Collab) (req : SingleReq) : Response × Trace :=
  let login := singleLogin env req
  if urlMissing req.url then
    ({ status := 400, body := errBody "Missing ?url (company page)" }, noTrace)
  else
    let url := req.url.getD ""
    match collab.jobsCompany url login with
    | .ok j => ({ status := 200, body := j }, { browserCreated := true, collabCalls := [.jobsCompany url login] })
    | .error e => ({ status := 500, body := errBody e }, { browserCreated := true, collabCalls := [.jobsCompany url login] })

/-! ## Queue model (server.js POST /queue) -/

structure QTask where
  type : String
  url : String
  days : Option Nat
  login : Option Int
deriving DecidableEq, Repr

/-- Embedding of `t.days || 30`: a missing or zero `days` (both falsy)
defaults to 30. -/
def qDays (t : QTask) : Nat :=
  match t.days with
  | none => 30
  | some d => if d = 0 then 30 else d

/-- Embedding of `t.login === 1 || Boolean(process.env.LINKEDIN_EMAIL)`. -/
def qLogin (env : Env) (t : QTask) : Bool :=
  decide (t.login = some 1) || jsTruthy env.linkedinEmail

/-- Dispatch on `t.type`: the collaborator call the task performs, or
`none` for an unrecognized type (no collaborator call at all). -/
def dispatchTask (collab : Collab) (t : QTask) (login : Bool) : Option (Except String Json × CallTag) :=
  if t.type = "profile" then some (collab.profile t.url login, .profile t.url login)
  else if t.type = "profile_posts" then some (collab.profilePosts t.url (qDays t) login, .profilePosts t.url (qDays t) login)
  else if t.type = "company" then some (collab.company t.url login, .company t.url login)
  else if t.type = "company_posts" then some (collab.companyPosts t.url (qDays t) login, .companyPosts t.url (qDays t) login)
  else if t.type = "jobs_company" then some (collab.jobsCompany t.url login, .jobsCompany t.url login)
  else none

/-- The local object `{ error: 'unknown_type', type: t.type, url: t.url }`. -/
def unknownOut (t : QTask) : Json :=
  .obj (.cons "error" (.str "unknown_type")
         (.cons "type" (.str t.type)
           (.cons "url" (.str t.url) .nil)))

/-- The success envelope `{ ok: true, type, url, result }`. -/
def okEnvelope (t : QTask) (result : Json) : Json :=
  .obj (.cons "ok" (.bool true)
         (.cons "type" (.str t.type)
           (.cons "url" (.str t.url)
             (.cons "result" result .nil))))

/-- The failure envelope `{ ok: false, type, url, error }`. -/
def errEnvelope (t : QTask) (msg : String) : Json :=
  .obj (.cons "ok" (.bool false)
         (.cons "type" (.str t.type)
           (.cons "url" (.str t.url)
             (.cons "error" (.str msg) .nil))))

/-- One loop iteration of the queue handler: dispatch on the task type,
wrap a successful outcome (including the unknown-type local object) in the
`ok: true` envelope, and catch a thrown exception into the `ok: false`
envelope. Returns the envelope and the collaborator calls performed. -/
def runQTask (env : Env) (collab : Collab) (t : QTask) : Json × List CallTag :=
  match dispatchTask collab t (qLogin env t) with
  | none => (okEnvelope t (unknownOut t), [])
  | some (.ok out, c) => (okEnvelope t out, [c])
  | some (.error e, c) => (errEnvelope t e, [c])

structure QueueOutcome where
  status : Nat
  writes : List String
  body : Option Json

/-- Embedding of the POST /queue handler: 400 on an empty task list; in
streaming mode one `JSON.stringify(envelope) + '\n'` chunk per task, in
task order, then `res.end()`; otherwise no chunks and a final bare
`{ok:true}` acknowledgement. The second component collects the
collaborator calls of all tasks, in order. -/
def postQueue (env : Env) (collab : Collab) (stream : Bool) (tasks : List QTask) : QueueOutcome × List CallTag :=
  if tasks = [] then
    ({ status := 400, writes := [],
       body := some (errBody "Provide tasks: [\x7btype,url,days?,login?\x7d, ...]") }, [])
  else
    let rs := tasks.map (runQTask env collab)
    if stream then
      ({ status := 200,
         writes := rs.map (fun r => String.mk (Json.chars r.1 ++ ['\n'])),
         body := none }, (rs.map Prod.snd).flatten)
    else
      ({ status := 200, writes := [],
         body := some (.obj (.cons "ok" (.bool true) .nil)) }, (rs.map Prod.snd).flatten)

/-! ## Concrete instances used by witnesses and counterexamples -/

def envNone : Env := { linkedinEmail := none }

def envEmptyEmail : Env := { linkedinEmail := some "" }

def nullCollab : Collab where
  profile := fun _ _ => .ok .null
  profilePosts := fun _ _ _ => .ok .null
  company := fun _ _ => .ok .null
  companyPosts := fun _ _ _ => .ok .null
  jobsCompany := fun _ _ => .ok .null

def bogusTask : QTask := { type := "widget", url := "https://example.com/x", days := none, login := none }

def okWorld : World where
  loginResult := .ok ()
  gotoResult := .ok ()
  pageUrl := "https://www.linkedin.com/company/acme/jobs/"
  html := "<html><body>jobs</body></html>"
  nowIso := "2026-01-01T00:00:00.000Z"
  now := 1767225600000
  parse := fun _ => none
  profileEval := .null
  companyEval := .null
  profilePostNodes := []
  companyPostNodes := []
  jobCards := [{ title := some "Engineer", location := some "Berlin", listed := none, jobUrl := none }]

/-! ## Claims -/

/-- C1 (counterexample): the claim says the envelope of an unknown task
type has ok:false; on the code the unknown-type object is wrapped in the
ordinary success envelope, whose ok field is true, so the claim fails at
the concrete task with type "widget". -/
theorem C1_counterexample :
    Json.getField (runQTask envNone nullCollab bogusTask).1 "ok" ≠ some (Json.bool false) := by
  intro h
  have h2 : Json.getField (runQTask envNone nullCollab bogusTask).1 "ok" = some (Json.bool true) := rfl
  rw [h2] at h
  simp at h

/-- C1 (amended): for every task whose type is not one of the five known
kinds, the queue loop produces the envelope
`{ok:true, type, url, result:{error:"unknown_type", type, url}}` and
performs no extraction-collaborator call. -/
theorem C1_unknown_type_envelope (env : Env) (collab : Collab) (t : QTask)
    (h : t.type ∉ (["profile", "profile_posts", "company", "company_posts", "jobs_company"] : List String)) :
    runQTask env collab t = (okEnvelope t (unknownOut t), []) := by
  simp only [List.mem_cons, List.mem_singleton, List.not_mem_nil, not_or] at h
  obtain ⟨h1, h2, h3, h4, h5, -⟩ := h
  simp [runQTask, dispatchTask, h1, h2, h3, h4, h5]

/-- C1 witness: the amended claim evaluated at a concrete unknown-type task. -/
theorem C1_unknown_type_envelope_witness :
    runQTask envNone nullCollab bogusTask = (okEnvelope bogusTask (unknownOut bogusTask), []) :=
  C1_unknown_type_envelope envNone nullCollab bogusTask (by decide)

/-- C8: with stream=false the queue endpoint answers with the bare
acknowledgement `{ok:true}` (status 200, no streamed chunks), for every
collaborator and task list; the per-task collaborator calls are still
performed, but their results do not reach the response body. -/
theorem C8_nonstream_ack (env : Env) (collab : Collab) (tasks : List QTask) (h : tasks ≠ []) :
    (postQueue env collab false tasks).1.status = 200 ∧
    (postQueue env collab false tasks).1.writes = [] ∧
    (postQueue env collab false tasks).1.body = some (.obj (.cons "ok" (.bool true) .nil)) ∧
    (postQueue env collab false tasks).2 = (tasks.map (fun t => (runQTask env collab t).2)).flatten := by
  refine ⟨?_, ?_, ?_, ?_⟩ <;> simp [postQueue, h] <;> rfl

/-- C8 witness: the non-streamed acknowledgement at a concrete task list. -/
theorem C8_nonstream_ack_witness :
    (postQueue envNone nullCollab false [bogusTask]).1.body = some (.obj (.cons "ok" (.bool true) .nil)) :=
  (C8_nonstream_ack envNone nullCollab [bogusTask] (List.cons_ne_nil _ _)).2.2.1

/-- C9: a successful scrapeCompanyJobs result lists exactly the first 50
extracted job cards, hence at most 50 entries, and GET /jobs_company
serves that result as a 200 response. -/
theorem C9_jobs_cap (w : World) (url : String) (login : Bool) (r : JobsResult)
    (h : scrapeCompanyJobs w url login = .ok r) :
    r.jobs = w.jobCards.take 50 ∧
    r.jobs.length ≤ 50 ∧
    (∀ env req, req.url = some url → url ≠ "" → singleLogin env req = login →
      getJobsCompany env (collabOfWorld w) req =
        ({ status := 200, body := jobsResultJson r },
         { browserCreated := true, collabCalls := [.jobsCompany url login] })) := by
  have hr : r = { url := companyJobsUrl url, scrapedAt := w.nowIso, jobs := w.jobCards.take 50 } := by
    unfold scrapeCompanyJobs at h
    cases hg : scrapeGates w login with
    | error e => rw [hg] at h; exact Except.noConfusion h
    | ok u => rw [hg] at h; cases u; exact (Except.ok.inj h).symm
  subst hr
  refine ⟨rfl, List.length_take_le _ _, ?_⟩
  intro env req hu hne hl
  have hm : urlMissing (some url) = false := by simp [urlMissing, hne]
  simp [getJobsCompany, hm, hu, hl, collabOfWorld, h, Except.map]

/-- C9 witness: the cap evaluated at a concrete world with one job card. -/
theorem C9_jobs_cap_witness :
    ({ url := companyJobsUrl "https://example.com/company/acme", scrapedAt := okWorld.nowIso,
       jobs := okWorld.jobCards.take 50 } : JobsResult).jobs.length ≤ 50 :=
  (C9_jobs_cap okWorld "https://example.com/company/acme" false _ rfl).2.1

/-- C10 (counterexample): with LINKEDIN_EMAIL set to the empty string the
variable is set, yet `Boolean(process.env.LINKEDIN_EMAIL)` is false, so a
request with login=0 does not engage the login flow; the claim as stated
("whenever the variable is set") fails there. -/
theorem C10_counterexample :
    envEmptyEmail.linkedinEmail ≠ none ∧
    singleLogin envEmptyEmail { url := some "https://example.com/in/a", days := none, loginParam := some "0" } = false ∧
    qLogin envEmptyEmail { type := "profile", url := "u", days := none, login := some 0 } = false := by
  refine ⟨?_, rfl, rfl⟩
  simp [envEmptyEmail]

/-- C10 (amended): the login flow is engaged whenever LINKEDIN_EMAIL is
set to a non-empty string (JavaScript truthiness), regardless of the
request's login parameter, and the login=1 parameter (query string "1";
numeric 1 in queue tasks) engages it even without the variable; the flag
so computed is exactly what the handler passes to the collaborator. -/
theorem C10_login_engagement (env : Env) (collab : Collab) (req : SingleReq) (t : QTask) (u : String) :
    (jsTruthy env.linkedinEmail = true → singleLogin env req = true) ∧
    (req.loginParam = some "1" → singleLogin env req = true) ∧
    (jsTruthy env.linkedinEmail = true → qLogin env t = true) ∧
    (t.login = some 1 → qLogin env t = true) ∧
    (req.url = some u → u ≠ "" →
      (getProfile env collab req).2.collabCalls = [.profile u (singleLogin env req)]) := by
  refine ⟨?_, ?_, ?_, ?_, ?_⟩
  · intro h; simp [singleLogin, h]
  · intro h; simp [singleLogin, h]
  · intro h; simp [qLogin, h]
  · intro h; simp [qLogin, h]
  · intro hu hne
    have hm : urlMissing (some u) = false := by simp [urlMissing, hne]
    cases hc : collab.profile u (singleLogin env req) <;>
      simp [getProfile, hu, hm, hc]

/-- C10 witness: the amended claim evaluated at concrete requests. -/
theorem C10_login_engagement_witness :
    singleLogin { linkedinEmail := some "user@example.com" } { url := some "https://example.com/in/a", days := none, loginParam := some "0" } = true ∧
    (getProfile { linkedinEmail := some "user@example.com" } nullCollab { url := some "https://example.com/in/a", days := none, loginParam := some "0" }).2.collabCalls =
      [CallTag.profile "https://example.com/in/a" true] := by
  have h := C10_login_engagement { linkedinEmail := some "user@example.com" } nullCollab
    { url := some "https://example.com/in/a", days := none, loginParam := some "0" } bogusTask "https://example.com/in/a"
  exact ⟨h.1 (by decide), h.2.2.2.2 rfl (by decide)⟩

def throwCollab : Collab where
  profile := fun _ _ => .error "Error: net::ERR_TIMED_OUT"
  profilePosts := fun _ _ _ => .error "Error: net::ERR_TIMED_OUT"
  company := fun _ _ => .error "Error: net::ERR_TIMED_OUT"
  companyPosts := fun _ _ _ => .error "Error: net::ERR_TIMED_OUT"
  jobsCompany := fun _ _ => .error "Error: net::ERR_TIMED_OUT"

def plainReq : SingleReq := { url := some "https://example.com/in/a", days := none, loginParam := none }

/-- C5: on every single-task endpoint a missing or empty url parameter
yields status 400 with the "Missing ?url" body (the jobs endpoint uses its
company-page variant), and the handler creates no browser, performs no
collaborator call and hence acquires no session. -/
theorem C5_missing_url (env : Env) (collab : Collab) (req : SingleReq) (h : urlMissing req.url = true) :
    getProfile env collab req = ({ status := 400, body := errBody "Missing ?url" }, noTrace) ∧
    getProfilePosts env collab req = ({ status := 400, body := errBody "Missing ?url" }, noTrace) ∧
    getCompany env collab req = ({ status := 400, body := errBody "Missing ?url" }, noTrace) ∧
    getCompanyPosts env collab req = ({ status := 400, body := errBody "Missing ?url" }, noTrace) ∧
    getJobsCompany env collab req = ({ status := 400, body := errBody "Missing ?url (company page)" }, noTrace) ∧
    noTrace.browserCreated = false ∧ noTrace.collabCalls = [] ∧ sessionAcquired noTrace = false := by
  refine ⟨?_, ?_, ?_, ?_, ?_, rfl, rfl, rfl⟩ <;>
    simp [getProfile, getProfilePosts, getCompany, getCompanyPosts, getJobsCompany, h]

/-- C5 witness: the 400 response at a concrete request with no url. -/
theorem C5_missing_url_witness :
    getProfile envNone nullCollab { url := none, days := none, loginParam := none } =
      ({ status := 400, body := errBody "Missing ?url" }, noTrace) :=
  (C5_missing_url envNone nullCollab { url := none, days := none, loginParam := none } rfl).1

/-- C6: an exception thrown by a collaborator call never escapes the task
boundary: each single-task endpoint answers 500 with `{error: message}`,
and in the queue every task still yields exactly one envelope (so a
failing task does not stop the ones after it), the failing task's
envelope being `{ok:false, type, url, error: message}`. -/
theorem C6_collab_exception (env : Env) (collab : Collab) (req : SingleReq) (u e : String)
    (hu : req.url = some u) (hne : u ≠ "") :
    (collab.profile u (singleLogin env req) = .error e →
      getProfile env collab req = ({ status := 500, body := errBody e },
        { browserCreated := true, collabCalls := [.profile u (singleLogin env req)] })) ∧
    (collab.profilePosts u (singleDays req) (singleLogin env req) = .error e →
      getProfilePosts env collab req = ({ status := 500, body := errBody e },
        { browserCreated := true, collabCalls := [.profilePosts u (singleDays req) (singleLogin env req)] })) ∧
    (collab.company u (singleLogin env req) = .error e →
      getCompany env collab req = ({ status := 500, body := errBody e },
        { browserCreated := true, collabCalls := [.company u (singleLogin env req)] })) ∧
    (collab.companyPosts u (singleDays req) (singleLogin env req) = .error e →
      getCompanyPosts env collab req = ({ status := 500, body := errBody e },
        { browserCreated := true, collabCalls := [.companyPosts u (singleDays req) (singleLogin env req)] })) ∧
    (collab.jobsCompany u (singleLogin env req) = .error e →
      getJobsCompany env collab req = ({ status := 500, body := errBody e },
        { browserCreated := true, collabCalls := [.jobsCompany u (singleLogin env req)] })) ∧
    (∀ tasks : List QTask, tasks ≠ [] →
      (postQueue env collab true tasks).1.writes =
        tasks.map (fun t => String.mk (Json.chars (runQTask env collab t).1 ++ ['\n']))) ∧
    (∀ t : QTask, ∀ c : CallTag, dispatchTask collab t (qLogin env t) = some (.error e, c) →
      runQTask env collab t = (errEnvelope t e, [c])) := by
  have hm : urlMissing (some u) = false := by simp [urlMissing, hne]
  refine ⟨?_, ?_, ?_, ?_, ?_, ?_, ?_⟩
  · intro hc; simp [getProfile, hu, hm, hc]
  · intro hc; simp [getProfilePosts, hu, hm, hc]
  · intro hc; simp [getCompany, hu, hm, hc]
  · intro hc; simp [getCompanyPosts, hu, hm, hc]
  · intro hc; simp [getJobsCompany, hu, hm, hc]
  · intro tasks ht
    simp only [postQueue, if_neg ht, if_pos]
    rw [List.map_map]
    rfl
  · intro t c hd; simp [runQTask, hd]

/-- C6 witness: the 500 response and the queue error envelope at a
concrete always-throwing collaborator. -/
theorem C6_collab_exception_witness :
    getProfile envNone throwCollab plainReq =
      ({ status := 500, body := errBody "Error: net::ERR_TIMED_OUT" },
       { browserCreated := true, collabCalls := [.profile "https://example.com/in/a" false] }) ∧
    runQTask envNone throwCollab { type := "profile", url := "https://example.com/in/a", days := none, login := none } =
      (errEnvelope { type := "profile", url := "https://example.com/in/a", days := none, login := none } "Error: net::ERR_TIMED_OUT",
       [.profile "https://example.com/in/a" false]) := by
  have h := C6_collab_exception envNone throwCollab plainReq "https://example.com/in/a" "Error: net::ERR_TIMED_OUT" rfl (by decide)
  exact ⟨h.1 rfl, h.2.2.2.2.2.2 _ _ rfl⟩

def captchaWorld : World :=
  { okWorld with pageUrl := "https://www.linkedin.com/checkpoint/challenge/Ag",
                 html := "<html><body>Please solve this CAPTCHA</body></html>" }

/-- C7: when the collaborator detects an anti-bot challenge page it
returns the sentinel `{error:"captcha_or_challenge", url: observed}`
instead of throwing (scrapeProfile and scrapeCompany), the single-task
endpoint serves that sentinel as a normal 200 payload, and the queue
endpoint wraps it in an `ok:true` envelope, so the block is visible only
in the payload. -/
theorem C7_captcha_sentinel (w : World) (url : String) (login : Bool) (env : Env) (collab : Collab)
    (req : SingleReq) (t : QTask) (u : String) (c : CallTag)
    (hg : scrapeGates w login = .ok ())
    (hc : looksLikeCaptcha w.pageUrl w.html = true) :
    scrapeProfile w url login = .ok (sentinel w.pageUrl) ∧
    scrapeCompany w url login = .ok (sentinel w.pageUrl) ∧
    (req.url = some u → u ≠ "" → collab.profile u (singleLogin env req) = .ok (sentinel w.pageUrl) →
      getProfile env collab req = ({ status := 200, body := sentinel w.pageUrl },
        { browserCreated := true, collabCalls := [.profile u (singleLogin env req)] })) ∧
    (dispatchTask collab t (qLogin env t) = some (.ok (sentinel w.pageUrl), c) →
      runQTask env collab t = (okEnvelope t (sentinel w.pageUrl), [c])) := by
  refine ⟨?_, ?_, ?_, ?_⟩
  · simp [scrapeProfile, hg, hc]
  · simp [scrapeCompany, hg, hc]
  · intro hu hne hcall
    have hm : urlMissing (some u) = false := by simp [urlMissing, hne]
    simp [getProfile, hu, hm, hcall]
  · intro hd; simp [runQTask, hd]

/-- C7 witness: the sentinel evaluated at a concrete challenge world. -/
theorem C7_captcha_sentinel_witness :
    scrapeProfile captchaWorld "https://example.com/in/a" false = .ok (sentinel captchaWorld.pageUrl) ∧
    getProfile envNone (collabOfWorld captchaWorld) plainReq =
      ({ status := 200, body := sentinel captchaWorld.pageUrl },
       { browserCreated := true, collabCalls := [.profile "https://example.com/in/a" false] }) := by
  have h := C7_captcha_sentinel captchaWorld "https://example.com/in/a" false envNone
    (collabOfWorld captchaWorld) plainReq bogusTask "https://example.com/in/a" (.profile "https://example.com/in/a" false)
    rfl (by decide)
  exact ⟨h.1, h.2.2.1 rfl (by decide) h.1⟩

/-! ## Streaming queue claim -/

def acmeCollab : Collab where
  profile := fun _ _ => .error "unused"
  profilePosts := fun _ _ _ => .error "unused"
  company := fun u _ => .ok (.obj (.cons "url" (.str u)
                     (.cons "scrapedAt" (.str "2026-01-01T00:00:00.000Z")
                       (.cons "data" (.obj (.cons "name" (.str "Acme") .nil)) .nil))))
  companyPosts := fun _ _ _ => .error "unused"
  jobsCompany := fun _ _ => .error "unused"

def acmeTask : QTask := { type := "company", url := "https://example.com/company/acme", days := none, login := none }

/-- Streamed chunks of the queue handler: one stringified envelope plus a
newline per task, in task order. -/
theorem postQueue_stream_writes_eq (env : Env) (collab : Collab) (tasks : List QTask) (h : tasks ≠ []) :
    (postQueue env collab true tasks).1.writes =
      tasks.map (fun t => String.mk (Json.chars (runQTask env collab t).1 ++ ['\n'])) := by
  simp only [postQueue, if_neg h, if_pos]
  rw [List.map_map]
  rfl

/-- C2: with stream=true the queue writes exactly one chunk per task, in
task order, each chunk being the stringified envelope of that task plus a
terminating newline; the stringified envelope itself contains no raw
newline, so each chunk is one NDJSON line. At the concrete company task
against the stub collaborator echoing back a name of Acme, the single
line is exactly the expected envelope. -/
theorem C2_stream_ndjson (env : Env) (collab : Collab) (tasks : List QTask) (h : tasks ≠ []) :
    (postQueue env collab true tasks).1.writes.length = tasks.length ∧
    (∀ i : Nat, ∀ t : QTask, tasks.get? i = some t →
      (postQueue env collab true tasks).1.writes.get? i =
        some (String.mk (Json.chars (runQTask env collab t).1 ++ ['\n']))) ∧
    (∀ t : QTask, '\n' ∉ Json.chars (runQTask env collab t).1) ∧
    (postQueue envNone acmeCollab true [acmeTask]).1.writes =
      ["\x7b\"ok\":true,\"type\":\"company\",\"url\":\"https://example.com/company/acme\",\"result\":\x7b\"url\":\"https://example.com/company/acme\",\"scrapedAt\":\"2026-01-01T00:00:00.000Z\",\"data\":\x7b\"name\":\"Acme\"\x7d\x7d\x7d\n"] := by
  refine ⟨?_, ?_, ?_, ?_⟩
  · rw [postQueue_stream_writes_eq env collab tasks h, List.length_map]
  · intro i t ht
    rw [postQueue_stream_writes_eq env collab tasks h, List.get?_map, ht]
    rfl
  · intro t
    exact jsonCharsNoNewline (runQTask env collab t).1
  · decide

/-- C2 witness: one line for the one-task list. -/
theorem C2_stream_ndjson_witness :
    (postQueue envNone acmeCollab true [acmeTask]).1.writes.length = [acmeTask].length :=
  (C2_stream_ndjson envNone acmeCollab [acmeTask] (List.cons_ne_nil _ _)).1

/-! ## Posts cutoff claim -/

/-- Membership in the posts filter: an item is kept exactly when it has no
timestamp, an unparseable timestamp, or a parsed timestamp strictly after
the cutoff. -/
theorem mem_postsFilter (parse : String → Option Int) (cutoff : Int) (items : List PostItem) (it : PostItem) :
    it ∈ postsFilter parse cutoff items ↔
      it ∈ items ∧ (it.timeRaw = none ∨
        (∃ s, it.timeRaw = some s ∧ parse s = none) ∨
        (∃ s ts, it.timeRaw = some s ∧ parse s = some ts ∧ cutoff < ts)) := by
  unfold postsFilter
  rw [List.mem_filter]
  refine and_congr_right fun _ => ?_
  rcases hr : it.timeRaw with _ | s
  · simp [keepItem, hr]
  · rcases hps : parse s with _ | ts
    · simp [keepItem, hr, hps]
    · simp [keepItem, hr, hps, decide_eq_true_eq]

/-- C3: every item of a successful profile-posts or company-posts result
is kept exactly when it has no timestamp, an unparseable timestamp, or a
parsed timestamp strictly after `now - days` days; in particular no item
with a parseable timestamp at or before the cutoff appears. -/
theorem C3_posts_cutoff (w : World) (url : String) (days : Nat) (login : Bool)
    (rp rc : PostsResult) (it : PostItem)
    (hp : scrapeProfilePosts w url days login = .ok rp)
    (hcp : scrapeCompanyPosts w url days login = .ok rc) :
    (it ∈ rp.items ↔ it ∈ w.profilePostNodes ∧ (it.timeRaw = none ∨
        (∃ s, it.timeRaw = some s ∧ w.parse s = none) ∨
        (∃ s ts, it.timeRaw = some s ∧ w.parse s = some ts ∧ cutoffOf w.now days < ts))) ∧
    (∀ s ts, it ∈ rp.items → it.timeRaw = some s → w.parse s = some ts → cutoffOf w.now days < ts) ∧
    (it ∈ rc.items ↔ it ∈ w.companyPostNodes ∧ (it.timeRaw = none ∨
        (∃ s, it.timeRaw = some s ∧ w.parse s = none) ∨
        (∃ s ts, it.timeRaw = some s ∧ w.parse s = some ts ∧ cutoffOf w.now days < ts))) ∧
    (∀ s ts, it ∈ rc.items → it.timeRaw = some s → w.parse s = some ts → cutoffOf w.now days < ts) := by
  have hrp : rp = { url := profilePostsUrl url, scrapedAt := w.nowIso, days := days,
                    items := postsFilter w.parse (cutoffOf w.now days) w.profilePostNodes } := by
    unfold scrapeProfilePosts at hp
    cases hg : scrapeGates w login with
    | error e => rw [hg] at hp; exact Except.noConfusion hp
    | ok uu => rw [hg] at hp; cases uu; exact (Except.ok.inj hp).symm
  have hrc : rc = { url := companyPostsUrl url, scrapedAt := w.nowIso, days := days,
                    items := postsFilter w.parse (cutoffOf w.now days) w.companyPostNodes } := by
    unfold scrapeCompanyPosts at hcp
    cases hg : scrapeGates w login with
    | error e => rw [hg] at hcp; exact Except.noConfusion hcp
    | ok uu => rw [hg] at hcp; cases uu; exact (Except.ok.inj hcp).symm
  subst hrp hrc
  have key : ∀ items : List PostItem, ∀ s : String, ∀ ts : Int,
      it ∈ postsFilter w.parse (cutoffOf w.now days) items → it.timeRaw = some s →
      w.parse s = some ts → cutoffOf w.now days < ts := by
    intro items s ts hmem hr hps
    rcases (mem_postsFilter _ _ _ _).mp hmem with ⟨-, hnone | ⟨s2, hr2, hps2⟩ | ⟨s2, ts2, hr2, hps2, hlt⟩⟩
    · rw [hr] at hnone; exact Option.noConfusion hnone
    · rw [hr] at hr2
      obtain rfl : s = s2 := Option.some.inj hr2
      rw [hps] at hps2
      exact Option.noConfusion hps2
    · rw [hr] at hr2
      obtain rfl : s = s2 := Option.some.inj hr2
      rw [hps] at hps2
      obtain rfl : ts = ts2 := Option.some.inj hps2
      exact hlt
  exact ⟨mem_postsFilter _ _ _ _, fun s ts => key _ s ts,
         mem_postsFilter _ _ _ _, fun s ts => key _ s ts⟩

def itemNew : PostItem := { text := some "fresh", timeRaw := some "2026-01-01T00:00:00Z", postUrl := none }

def itemOld : PostItem := { text := some "stale", timeRaw := some "2025-01-01T00:00:00Z", postUrl := none }

def postsWorld : World :=
  { okWorld with
      now := 1767230000000
      parse := fun s =>
        if s = "2026-01-01T00:00:00Z" then some 1767225600000
        else if s = "2025-01-01T00:00:00Z" then some 1735689600000
        else none
      profilePostNodes := [itemNew, itemOld]
      companyPostNodes := [itemOld] }

def rpPosts : PostsResult :=
  { url := profilePostsUrl "https://example.com/in/a", scrapedAt := postsWorld.nowIso, days := 30,
    items := postsFilter postsWorld.parse (cutoffOf postsWorld.now 30) postsWorld.profilePostNodes }

def rcPosts : PostsResult :=
  { url := companyPostsUrl "https://example.com/in/a", scrapedAt := postsWorld.nowIso, days := 30,
    items := postsFilter postsWorld.parse (cutoffOf postsWorld.now 30) postsWorld.companyPostNodes }

/-- C3 witness: at a concrete world a fresh item is kept and the stale one
is excluded from the company result. -/
theorem C3_posts_cutoff_witness :
    itemNew ∈ rpPosts.items ∧ itemOld ∉ rcPosts.items := by
  have h := C3_posts_cutoff postsWorld "https://example.com/in/a" 30 false rpPosts rcPosts itemNew rfl rfl
  have h2 := C3_posts_cutoff postsWorld "https://example.com/in/a" 30 false rpPosts rcPosts itemOld rfl rfl
  refine ⟨h.1.mpr ⟨by decide, Or.inr (Or.inr ⟨"2026-01-01T00:00:00Z", 1767225600000, rfl, by decide, by decide⟩)⟩, ?_⟩
  intro hmem
  have := h2.2.2.2 "2025-01-01T00:00:00Z" 1735689600000 hmem rfl (by decide)
  revert this
  decide

/-! ## Throttle claim -/

/-- C4: one throttle call with random draw q in the unit interval waits a
value between the two bounds, and the newly recorded start time is at
least that value after the previous recorded start; in the degenerate
case of equal bounds 1000, the drawn wait is exactly 1000 and back-to-back
calls record start times exactly 1000 ms apart. -/
theorem C4_throttle (lastRun now mn mx : Int) (q : Rat)
    (h0 : 0 ≤ q) (h1 : q < 1) (hm : mn ≤ mx) :
    (mn ≤ randWait mn mx q ∧ randWait mn mx q ≤ mx) ∧
    randWait mn mx q ≤ throttleStep lastRun now (randWait mn mx q) - lastRun ∧
    randWait 1000 1000 q = 1000 ∧
    (∀ start : Int, ∀ n : Nat, throttleChain start (n + 1) - throttleChain start n = 1000) := by
  have hQ : (0 : Rat) < (mx : Rat) - (mn : Rat) + 1 := by
    have hc : (mn : Rat) ≤ (mx : Rat) := by exact_mod_cast hm
    linarith
  have hge : 0 ≤ ⌊q * ((mx : Rat) - (mn : Rat) + 1)⌋ :=
    Int.floor_nonneg.mpr (mul_nonneg h0 (le_of_lt hQ))
  have hlt : ⌊q * ((mx : Rat) - (mn : Rat) + 1)⌋ < mx - mn + 1 := by
    rw [Int.floor_lt]
    have h2 : q * ((mx : Rat) - (mn : Rat) + 1) < 1 * ((mx : Rat) - (mn : Rat) + 1) :=
      mul_lt_mul_of_pos_right h1 hQ
    rw [one_mul] at h2
    calc q * ((mx : Rat) - (mn : Rat) + 1) < (mx : Rat) - (mn : Rat) + 1 := h2
      _ = ((mx - mn + 1 : Int) : Rat) := by push_cast; ring
  refine ⟨⟨?_, ?_⟩, ?_, ?_, ?_⟩
  · unfold randWait; omega
  · unfold randWait; omega
  · unfold throttleStep; split <;> omega
  · have hq0 : ⌊q⌋ = 0 := Int.floor_eq_zero_iff.mpr (Set.mem_Ico.mpr ⟨h0, h1⟩)
    unfold randWait
    norm_num [hq0]
  · intro start n
    simp [throttleChain, throttleStep]

/-- C4 witness: the throttle facts evaluated at concrete bounds 2 and 4,
draw one half, and a concrete chain segment. -/
theorem C4_throttle_witness :
    ((2 : Int) ≤ randWait 2 4 (1 / 2) ∧ randWait 2 4 (1 / 2) ≤ 4) ∧
    randWait 2 4 (1 / 2) ≤ throttleStep 0 0 (randWait 2 4 (1 / 2)) - 0 ∧
    randWait 1000 1000 (1 / 2) = 1000 ∧
    throttleChain 7 (3 + 1) - throttleChain 7 3 = 1000 := by
  have h := C4_throttle 0 0 2 4 (1 / 2) (by norm_num) (by norm_num) (by norm_num)
  exact ⟨h.1, h.2.1, h.2.2.1, h.2.2.2 7 3⟩
